import Mathlib

/-!
Verification of the ESP32 elevator-bank firmware (server + client boards).

The development shallow-embeds the Python sources:
  - src/server/motor.py      : stepper motion profile and floor bookkeeping
  - src/server/elevator.py   : elevator state store and dispatch scheduler
  - src/server/websocket.py  : frame codec, handshake, session message handlers
  - src/client/websocket.py  : client-side frame encoder
  - src/client/pairing.py    : UDP discovery client

Machine integers are modelled as Nat/Int (Python ints are unbounded); Python
exceptions are modelled with Except/Option; the cooperative scheduler's
interleavings that matter (the stop_request flag read at each motion step) are
modelled as an explicit oracle function.
-/

namespace Motor

/-- Constant STEPS_PER_FLOOR from MotorController.__init__ (src/server/motor.py). -/
def STEPS_PER_FLOOR : ℤ := 550

/-- Constant MIN_STEP_DELAY_US (fastest delay, max speed). -/
def MIN_STEP_DELAY_US : ℤ := 500

/-- Constant ACCELERATION_STEPS (length of the accel/decel windows). -/
def ACCELERATION_STEPS : ℤ := 50

/-- Constant MAX_STEP_DELAY_US (slowest delay, start/end speed). -/
def MAX_STEP_DELAY_US : ℤ := 2000

/-- calculate_delay from MotorController.rotate_motor (src/server/motor.py lines
102-125).  The Python code computes the delay as a float and truncates with
int().  At the controller's constants the float arithmetic is exact (the
division (MAX-MIN)*step/ACCELERATION_STEPS has small exact operands), so the
value is the exact rational; int() truncation toward zero on the exact rational
a/b is Int.tdiv a b.  MAX - (MAX-MIN)*step/ACCEL is written as the single exact
quotient (MAX*ACCEL - (MAX-MIN)*step)/ACCEL, and likewise for the deceleration
branch. -/
def calculate_delay (steps step : ℤ) : ℤ :=
  if step < ACCELERATION_STEPS then
    Int.tdiv (MAX_STEP_DELAY_US * ACCELERATION_STEPS -
      (MAX_STEP_DELAY_US - MIN_STEP_DELAY_US) * step) ACCELERATION_STEPS
  else if step > steps - ACCELERATION_STEPS then
    Int.tdiv (MIN_STEP_DELAY_US * ACCELERATION_STEPS +
      (MAX_STEP_DELAY_US - MIN_STEP_DELAY_US) * (step - (steps - ACCELERATION_STEPS)))
      ACCELERATION_STEPS
  else MIN_STEP_DELAY_US

/-- In the acceleration window the delay is exactly 2000 - 30*step. -/
theorem calculate_delay_accel (steps step : ℤ) (h : step < 50) :
    calculate_delay steps step = 2000 - 30 * step := by
  unfold calculate_delay ACCELERATION_STEPS MAX_STEP_DELAY_US MIN_STEP_DELAY_US
  rw [if_pos h]
  have hx : (2000 * 50 - (2000 - 500) * step : ℤ) = 50 * (2000 - 30 * step) := by ring
  rw [hx, Int.mul_tdiv_cancel_left _ (by norm_num)]

/-- In the deceleration window the delay is exactly 500 + 30*(step-(steps-50)). -/
theorem calculate_delay_decel (steps step : ℤ) (h1 : ¬ step < 50)
    (h2 : step > steps - 50) :
    calculate_delay steps step = 500 + 30 * (step - (steps - 50)) := by
  unfold calculate_delay ACCELERATION_STEPS MAX_STEP_DELAY_US MIN_STEP_DELAY_US
  rw [if_neg h1, if_pos h2]
  have hx : (500 * 50 + (2000 - 500) * (step - (steps - 50)) : ℤ) =
      50 * (500 + 30 * (step - (steps - 50))) := by ring
  rw [hx, Int.mul_tdiv_cancel_left _ (by norm_num)]

/-- In the middle region the delay is exactly MIN_STEP_DELAY_US. -/
theorem calculate_delay_mid (steps step : ℤ) (h1 : ¬ step < 50)
    (h2 : ¬ step > steps - 50) :
    calculate_delay steps step = 500 := by
  unfold calculate_delay ACCELERATION_STEPS MAX_STEP_DELAY_US MIN_STEP_DELAY_US
  rw [if_neg h1, if_neg h2]

/-- Per-motor bookkeeping of MotorController: the parallel lists created in
__init__ (moving_status, stop_request, current_steps, current_floor), one entry
per configured motor.  The Pin objects carry no modelled state. -/
structure MotorState where
  moving_status : List Bool
  stop_request : List Bool
  current_steps : List ℤ
  current_floor : List ℤ
  deriving DecidableEq, Repr

/-- MotorController.__init__ for n motors: nothing moving, no stop requests,
every motor on floor 1. -/
def initMotors (n : ℕ) : MotorState :=
  { moving_status := List.replicate n false
    stop_request := List.replicate n false
    current_steps := List.replicate n 0
    current_floor := List.replicate n 1 }

/-- Number of iterations of rotate_motor's for-loop that emit a step pulse.
stop_request[motor_index] is written concurrently by stop_motor; stopAt i is
the value the loop observes at the check opening iteration i, so the loop runs
until the first iteration whose check reads true (or all steps are done). -/
def stepsCompleted (steps : ℕ) (stopAt : ℕ → Bool) : ℕ :=
  ((List.range steps).takeWhile (fun i => !stopAt i)).length

/-- MotorController.rotate_motor (src/server/motor.py lines 82-140): raises for
an out-of-range motor index, returns immediately for steps == 0, otherwise
pulses until done or stopped; moving_status is set true for the duration and
false in the finally block (net: false).  Returns the new state and the number
of pulses actually emitted.  Pin signalling and the per-step delays are timing
effects with no bearing on the recorded state. -/
def rotate_motor (st : MotorState) (idx : ℕ) (steps : ℕ) (stopAt : ℕ → Bool) :
    Except String (MotorState × ℕ) :=
  if idx ≥ st.moving_status.length then .error "Invalid motor index"
  else if steps = 0 then .ok (st, 0)
  else .ok ({ st with moving_status := st.moving_status.set idx false },
    stepsCompleted steps stopAt)

/-- MotorController.move_to_floor (src/server/motor.py lines 166-189): validates
the index and the floor (1..3), returns unchanged when already on the target
floor, otherwise rotates abs(diff)*STEPS_PER_FLOOR steps and then assigns
current_floor[motor_index] = target_floor unconditionally. -/
def move_to_floor (st : MotorState) (idx : ℕ) (target : ℤ) (stopAt : ℕ → Bool) :
    Except String (MotorState × ℕ) :=
  if idx ≥ st.current_floor.length then .error "Invalid motor index"
  else if target < 1 ∨ target > 3 then .error "Invalid floor number"
  else if st.current_floor.getD idx 0 = target then .ok (st, 0)
  else
    let floor_diff := target - st.current_floor.getD idx 0
    let steps := floor_diff.natAbs * STEPS_PER_FLOOR.toNat
    match rotate_motor st idx steps stopAt with
    | .error e => .error e
    | .ok (st1, done) =>
        .ok ({ st1 with current_floor := st1.current_floor.set idx target }, done)

end Motor

/-- Decidable equality for Except results, used to evaluate the embedded
fallible operations on concrete inputs. -/
instance exceptDecEq {ε α : Type} [DecidableEq ε] [DecidableEq α] :
    DecidableEq (Except ε α) := fun a b =>
  match a, b with
  | .error e, .error f =>
      if h : e = f then .isTrue (by rw [h]) else .isFalse (fun hh => h (Except.error.inj hh))
  | .error _, .ok _ => .isFalse (fun hh => Except.noConfusion hh)
  | .ok _, .error _ => .isFalse (fun hh => Except.noConfusion hh)
  | .ok x, .ok y =>
      if h : x = y then .isTrue (by rw [h]) else .isFalse (fun hh => h (Except.ok.inj hh))

/-- Claim C7: for a motion of steps > 2*ACCELERATION_STEPS total steps, the
per-step delay is non-increasing over the first ACCELERATION_STEPS steps
(starting at MAX_STEP_DELAY_US), equal to MIN_STEP_DELAY_US at every step of
the middle region, and non-decreasing over the final ACCELERATION_STEPS
steps. -/
theorem calculate_delay_trapezoid (steps : ℤ)
    (hsteps : steps > 2 * Motor.ACCELERATION_STEPS) :
    Motor.calculate_delay steps 0 = Motor.MAX_STEP_DELAY_US ∧
    (∀ i j : ℤ, 0 ≤ i → i ≤ j → j < Motor.ACCELERATION_STEPS →
      Motor.calculate_delay steps j ≤ Motor.calculate_delay steps i) ∧
    (∀ i : ℤ, Motor.ACCELERATION_STEPS ≤ i → i ≤ steps - Motor.ACCELERATION_STEPS →
      Motor.calculate_delay steps i = Motor.MIN_STEP_DELAY_US) ∧
    (∀ i j : ℤ, steps - Motor.ACCELERATION_STEPS ≤ i → i ≤ j → j ≤ steps - 1 →
      Motor.calculate_delay steps i ≤ Motor.calculate_delay steps j) := by
  simp only [show Motor.ACCELERATION_STEPS = 50 from rfl,
    show Motor.MAX_STEP_DELAY_US = 2000 from rfl,
    show Motor.MIN_STEP_DELAY_US = 500 from rfl] at hsteps ⊢
  have hdecelVal : ∀ x : ℤ, steps - 50 ≤ x →
      Motor.calculate_delay steps x = 500 + 30 * (x - (steps - 50)) := by
    intro x hx
    rcases eq_or_lt_of_le hx with heq | hlt
    · rw [Motor.calculate_delay_mid steps x (by omega) (by omega)]
      omega
    · rw [Motor.calculate_delay_decel steps x (by omega) (by omega)]
  refine ⟨?_, ?_, ?_, ?_⟩
  · rw [Motor.calculate_delay_accel steps 0 (by omega)]
    omega
  · intro i j h0i hij hj
    rw [Motor.calculate_delay_accel steps i (by omega),
      Motor.calculate_delay_accel steps j (by omega)]
    omega
  · intro i h1 h2
    exact Motor.calculate_delay_mid steps i (by omega) (by omega)
  · intro i j hi hij hj
    rw [hdecelVal i hi, hdecelVal j (le_trans hi hij)]
    omega

/-- Witness for C7 at the concrete motion steps = 150: the profile starts at
2000 us, decreases over the first window, sits at 500 us in the middle, and
increases again over the final window. -/
theorem calculate_delay_trapezoid_witness :
    Motor.calculate_delay 150 0 = Motor.MAX_STEP_DELAY_US ∧
    Motor.calculate_delay 150 7 ≤ Motor.calculate_delay 150 3 ∧
    Motor.calculate_delay 150 70 = Motor.MIN_STEP_DELAY_US ∧
    Motor.calculate_delay 150 120 ≤ Motor.calculate_delay 150 130 := by
  obtain ⟨h0, h1, h2, h3⟩ := calculate_delay_trapezoid 150 (by decide)
  exact ⟨h0, h1 3 7 (by decide) (by decide) (by decide),
    h2 70 (by decide) (by decide), h3 120 130 (by decide) (by decide) (by decide)⟩

set_option maxRecDepth 20000 in
/-- Claim C1, counterexample: starting from the initial state with a stop
request pending for motor 0 at every step check, move_to_floor(0, 3) aborts
after 0 of 1100 pulses, yet the recorded current_floor for channel 0 is 3, the
originally requested target — refuting "the channel's recorded current floor
... reflects only fully-completed motion and is not set to the originally
requested target floor". -/
theorem move_to_floor_abort_counterexample :
    (Motor.move_to_floor (Motor.initMotors 3) 0 3 (fun _ => true)).toOption.map
        (fun r => (r.1.current_floor, r.2)) = some ([3, 1, 1], 0) := by decide

/-- Claim C1, amended: whenever move_to_floor returns normally, the recorded
current_floor of the addressed channel equals the requested target floor —
even when a pending stop request aborted the motion before any (or all) steps
completed.  Callers cannot recover the actually reached position from the
recorded floor. -/
theorem move_to_floor_records_target (st : Motor.MotorState) (idx : ℕ) (target : ℤ)
    (stopAt : ℕ → Bool) (res : Motor.MotorState × ℕ)
    (h : Motor.move_to_floor st idx target stopAt = .ok res) :
    res.1.current_floor.getD idx 0 = target := by
  simp only [Motor.move_to_floor, Motor.rotate_motor] at h
  by_cases hidx : idx ≥ st.current_floor.length
  · simp only [if_pos hidx] at h; cases h
  simp only [if_neg hidx] at h
  by_cases hfl : target < 1 ∨ target > 3
  · simp only [if_pos hfl] at h; cases h
  simp only [if_neg hfl] at h
  have hlt : idx < st.current_floor.length := by omega
  by_cases heq : st.current_floor.getD idx 0 = target
  · simp only [if_pos heq] at h
    injection h with h2
    subst h2
    exact heq
  simp only [if_neg heq] at h
  by_cases hidx2 : idx ≥ st.moving_status.length
  · simp only [if_pos hidx2] at h; cases h
  simp only [if_neg hidx2] at h
  by_cases hz : (target - st.current_floor.getD idx 0).natAbs *
      Motor.STEPS_PER_FLOOR.toNat = 0
  · simp only [if_pos hz] at h
    injection h with h2
    subst h2
    simp [List.getD, List.getElem?_set_eq_of_lt _ hlt]
  · simp only [if_neg hz] at h
    injection h with h2
    subst h2
    simp [List.getD, List.getElem?_set_eq_of_lt _ hlt]

set_option maxRecDepth 20000 in
/-- Witness for the amended C1 at a concrete unobstructed move: motor 1 moves
from floor 1 to floor 2 and records floor 2. -/
theorem move_to_floor_records_target_witness :
    ({ Motor.initMotors 3 with
        current_floor := [1, 2, 1] } : Motor.MotorState).current_floor.getD 1 0 = 2 :=
  move_to_floor_records_target (Motor.initMotors 3) 1 2 (fun _ => false)
    ({ Motor.initMotors 3 with current_floor := [1, 2, 1] }, 550) (by decide)

namespace WS

/-- Text frame opcode WS_OPCODE_TEXT (src/server/websocket.py line 8). -/
def WS_OPCODE_TEXT : ℕ := 1

/-- Python n.to_bytes(k, "big").  Python raises OverflowError when n ≥ 256^k;
theorems that need the value back carry that bound. -/
def toBytesBE (k : ℕ) (n : ℕ) : List ℕ :=
  match k with
  | 0 => []
  | k + 1 => toBytesBE k (n / 256) ++ [n % 256]

/-- Python int.from_bytes(bs, "big"). -/
def fromBytesBE (bs : List ℕ) : ℕ := bs.foldl (fun a b => a * 256 + b) 0

/-- UTF-8 encoding of one Unicode code point, as produced by Python's
str.encode(): one to four bytes. -/
def utf8EncodeChar (c : ℕ) : List ℕ :=
  if c < 0x80 then [c]
  else if c < 0x800 then [0xC0 ||| (c >>> 6), 0x80 ||| (c &&& 0x3F)]
  else if c < 0x10000 then
    [0xE0 ||| (c >>> 12), 0x80 ||| ((c >>> 6) &&& 0x3F), 0x80 ||| (c &&& 0x3F)]
  else
    [0xF0 ||| (c >>> 18), 0x80 ||| ((c >>> 12) &&& 0x3F),
      0x80 ||| ((c >>> 6) &&& 0x3F), 0x80 ||| (c &&& 0x3F)]

/-- A Python str is modelled as its sequence of code points; str.encode() is
utf8Encode. -/
def utf8Encode (s : List ℕ) : List ℕ := s.flatMap utf8EncodeChar

/-- Strict decoding of one UTF-8 character at the head of a byte list, as
performed by Python's bytes.decode(): rejects invalid leading bytes, truncated
sequences, overlong encodings, surrogates and code points above U+10FFFF.
Returns the code point and the number of bytes consumed. -/
def utf8DecodeOne : List ℕ → Option (ℕ × ℕ)
  | [] => none
  | b :: rest =>
    if b ≤ 0x7F then some (b, 1)
    else if b < 0xC2 then none
    else if b ≤ 0xDF then
      match rest with
      | b1 :: _ =>
        if 0x80 ≤ b1 ∧ b1 ≤ 0xBF then some ((b - 0xC0) * 64 + (b1 - 0x80), 2) else none
      | [] => none
    else if b ≤ 0xEF then
      match rest with
      | b1 :: b2 :: _ =>
        if ((if b = 0xE0 then 0xA0 else 0x80) ≤ b1 ∧
            b1 ≤ (if b = 0xED then 0x9F else 0xBF)) ∧
            (0x80 ≤ b2 ∧ b2 ≤ 0xBF) then
          some ((b - 0xE0) * 4096 + (b1 - 0x80) * 64 + (b2 - 0x80), 3)
        else none
      | _ => none
    else if b ≤ 0xF4 then
      match rest with
      | b1 :: b2 :: b3 :: _ =>
        if ((if b = 0xF0 then 0x90 else 0x80) ≤ b1 ∧
            b1 ≤ (if b = 0xF4 then 0x8F else 0xBF)) ∧
            (0x80 ≤ b2 ∧ b2 ≤ 0xBF) ∧ (0x80 ≤ b3 ∧ b3 ≤ 0xBF) then
          some ((b - 0xF0) * 262144 + (b1 - 0x80) * 4096 + (b2 - 0x80) * 64 + (b3 - 0x80), 4)
        else none
      | _ => none
    else none

/-- Repeated utf8DecodeOne.  Every successful step consumes at least one byte,
so fuel = length of the input suffices; none models UnicodeDecodeError. -/
def utf8DecodeAux : ℕ → List ℕ → Option (List ℕ)
  | _, [] => some []
  | 0, _ :: _ => none
  | fuel + 1, b :: rest =>
    match utf8DecodeOne (b :: rest) with
    | none => none
    | some (c, n) =>
      match utf8DecodeAux fuel ((b :: rest).drop n) with
      | some cs => some (c :: cs)
      | none => none

/-- Python bytes.decode() over a whole byte list. -/
def utf8Decode (l : List ℕ) : Option (List ℕ) := utf8DecodeAux l.length l

/-- WebSocketServer.send_frame (src/server/websocket.py lines 144-165): header
byte 0x80|opcode, then the length field computed from len(data) — the number
of CHARACTERS of the Python str — while the transmitted payload is
data.encode(), its UTF-8 bytes.  No masking is applied. -/
def send_frame (data : List ℕ) : List ℕ :=
  (if data.length < 126 then [0x80 ||| WS_OPCODE_TEXT, data.length]
    else if data.length < 65536 then [0x80 ||| WS_OPCODE_TEXT, 126] ++ toBytesBE 2 data.length
    else [0x80 ||| WS_OPCODE_TEXT, 127] ++ toBytesBE 8 data.length) ++ utf8Encode data

/-- WebSocketClient.send_frame (src/client/websocket.py lines 139-161):
byte-for-byte the same construction as the server's send_frame — in
particular it sets no mask bit, appends no masking key and applies no XOR to
the payload. -/
def client_send_frame (data : List ℕ) : List ℕ :=
  (if data.length < 126 then [0x80 ||| 0x1, data.length]
    else if data.length < 65536 then [0x80 ||| 0x1, 126] ++ toBytesBE 2 data.length
    else [0x80 ||| 0x1, 127] ++ toBytesBE 8 data.length) ++ utf8Encode data

/-- Outcome of one receive_frame call on a byte stream. -/
inductive FrameResult where
  | closed : FrameResult
  | ioError : FrameResult
  | frame (msg : Option (List ℕ)) (rest : List ℕ) : FrameResult
  deriving DecidableEq, Repr

/-- bytes([data[i] ^ masking_key[i % 4] for i in range(len(data))]). -/
def unmaskBytes (key data : List ℕ) : List ℕ :=
  data.enum.map fun p => p.2 ^^^ key.getD (p.1 % 4) 0

/-- WebSocketServer.receive_frame (src/server/websocket.py lines 109-142), with
reader.read(k) modelled as taking min(k, available) bytes off the stream.
closed models the None return for an empty header read; ioError models a
raised exception (IndexError on a one-byte header or a too-short masking key,
UnicodeDecodeError from data.decode()); frame msg rest is a decoded frame:
msg = some text for the text opcode, none for every other opcode. -/
def receive_frame (s : List ℕ) : FrameResult :=
  match s with
  | [] => .closed
  | [_] => .ioError
  | h0 :: h1 :: rest =>
    let opcode := h0 &&& 0x0F
    let mask := (h1 &&& 0x80) >>> 7
    let len7 := h1 &&& 0x7F
    let lr := if len7 = 126 then (fromBytesBE (rest.take 2), rest.drop 2)
      else if len7 = 127 then (fromBytesBE (rest.take 8), rest.drop 8)
      else (len7, rest)
    let kr := if mask = 1 then (lr.2.take 4, lr.2.drop 4) else ([], lr.2)
    let data := kr.2.take lr.1
    let rest' := kr.2.drop lr.1
    if mask = 1 ∧ kr.1.length < 4 ∧ kr.1.length < data.length then .ioError
    else
      let data' := if mask = 1 then unmaskBytes kr.1 data else data
      if opcode = WS_OPCODE_TEXT then
        match utf8Decode data' with
        | some m => .frame (some m) rest'
        | none => .ioError
      else .frame none rest'

/-- The receive loop of WebSocketServer.handle_client (src/server/websocket.py
lines 56-62): data = receive_frame(); 'if not data: break' ends the session on
None (closed stream or non-text frame) and on the empty string; an exception
likewise ends the session (the except/finally blocks close the writer).  The
collected list is the sequence of messages passed to process_message.  Fuel
bounds the iteration count; handleClientMessages supplies enough. -/
def clientLoop : ℕ → List ℕ → List (List ℕ)
  | 0, _ => []
  | fuel + 1, s =>
    match receive_frame s with
    | .frame (some m) rest => if m = [] then [] else m :: clientLoop fuel rest
    | _ => []

/-- handle_client's loop run on a complete stream. -/
def handleClientMessages (s : List ℕ) : List (List ℕ) :=
  clientLoop (s.length + 1) s

/-- An ASCII code point encodes to itself. -/
theorem utf8EncodeChar_ascii (c : ℕ) (h : c < 128) : utf8EncodeChar c = [c] := by
  unfold utf8EncodeChar
  rw [if_pos h]

/-- An all-ASCII string encodes to its own code points. -/
theorem utf8Encode_ascii (m : List ℕ) (h : ∀ c ∈ m, c < 128) : utf8Encode m = m := by
  induction m with
  | nil => rfl
  | cons c cs ih =>
      unfold utf8Encode at *
      simp only [List.flatMap_cons]
      rw [utf8EncodeChar_ascii c (h c (by simp)), ih (fun x hx => h x (by simp [hx]))]
      rfl

/-- Decoding an all-ASCII byte sequence recovers exactly those bytes. -/
theorem utf8DecodeAux_ascii (fuel : ℕ) (m : List ℕ) (hf : m.length ≤ fuel)
    (h : ∀ c ∈ m, c < 128) : utf8DecodeAux fuel m = some m := by
  induction fuel generalizing m with
  | zero =>
      match m with
      | [] => rfl
      | c :: cs => simp at hf
  | succ fuel ih =>
      match m with
      | [] => rfl
      | c :: cs =>
          have hc : c < 128 := h c (by simp)
          simp only [utf8DecodeAux, utf8DecodeOne]
          rw [if_pos (show c ≤ 0x7F by omega)]
          simp only [List.drop_succ_cons, List.drop_zero]
          rw [ih cs (by simpa using hf) (fun x hx => h x (by simp [hx]))]

/-- Decoding an all-ASCII byte sequence recovers exactly those bytes. -/
theorem utf8Decode_ascii (m : List ℕ) (h : ∀ c ∈ m, c < 128) :
    utf8Decode m = some m :=
  utf8DecodeAux_ascii m.length m le_rfl h

/-- to_bytes always yields exactly k bytes. -/
theorem toBytesBE_length (k n : ℕ) : (toBytesBE k n).length = k := by
  induction k generalizing n with
  | zero => rfl
  | succ k ih => simp [toBytesBE, ih]

/-- from_bytes inverts to_bytes below the width bound. -/
theorem fromBytesBE_toBytesBE (k n : ℕ) (h : n < 256 ^ k) :
    fromBytesBE (toBytesBE k n) = n := by
  induction k generalizing n with
  | zero =>
      simp only [pow_zero, Nat.lt_one_iff] at h
      subst h
      rfl
  | succ k ih =>
      have hdiv : n / 256 < 256 ^ k := by
        rw [Nat.div_lt_iff_lt_mul (by norm_num)]
        calc n < 256 ^ (k + 1) := h
        _ = 256 ^ k * 256 := by ring
      unfold toBytesBE fromBytesBE
      rw [List.foldl_append]
      have : (toBytesBE k (n / 256)).foldl (fun a b => a * 256 + b) 0 = n / 256 :=
        ih (n / 256) hdiv
      unfold fromBytesBE at this
      rw [this]
      simp only [List.foldl_cons, List.foldl_nil]
      omega

/-- The mask bit of a 7-bit length byte is clear. -/
theorem maskBit_clear (n : ℕ) (h : n < 128) : (n &&& 0x80) >>> 7 = 0 := by
  have : ∀ n : ℕ, n < 128 → (n &&& 0x80) >>> 7 = 0 := by decide
  exact this n h

/-- A 7-bit length byte survives the & 0x7F extraction. -/
theorem and127_small (n : ℕ) (h : n < 128) : n &&& 0x7F = n := by
  have : ∀ n : ℕ, n < 128 → n &&& 0x7F = n := by decide
  exact this n h

/-- Extracting the opcode from a FIN|opcode header byte. -/
theorem finOpcode_extract (op : ℕ) (h : op < 16) : (0x80 ||| op) &&& 0x0F = op := by
  have : ∀ op : ℕ, op < 16 → (0x80 ||| op) &&& 0x0F = op := by decide
  exact this op h

end WS

namespace WS

/-- A 7-bit length byte has no mask bit. -/
theorem and128_small (n : ℕ) (h : n < 128) : n &&& 0x80 = 0 := by
  have : ∀ n : ℕ, n < 128 → n &&& 0x80 = 0 := by decide
  exact this n h

end WS

/-- Claim C3, counterexample: the length field of send_frame counts CHARACTERS
(len of the Python str) while the payload is the UTF-8 byte encoding, so for
the one-character message U+00E9 the frame declares length 1 but carries the
two bytes 0xC3 0xA9; decoding reads a single byte 0xC3, an invalid UTF-8
fragment, and raises UnicodeDecodeError instead of returning the message —
refuting decode(encode(m)) == m for every text m. -/
theorem frame_roundtrip_nonascii_counterexample :
    WS.receive_frame (WS.send_frame [0xE9]) = .ioError ∧
    WS.receive_frame (WS.send_frame [0xE9]) ≠ .frame (some [0xE9]) [] := by decide

/-- Claim C3, amended: decode(encode(m)) == m holds for every text m whose
characters are all ASCII (code point < 128, so that the character count in the
length field equals the payload byte count), for every payload length below
2^64, uniformly across the direct (< 126), 126 + 16-bit and 127 + 64-bit
length encodings. -/
theorem frame_roundtrip_ascii (m : List ℕ) (hascii : ∀ c ∈ m, c < 128)
    (hlen : m.length < 2 ^ 64) :
    WS.receive_frame (WS.send_frame m) = .frame (some m) [] := by
  have henc : WS.utf8Encode m = m := WS.utf8Encode_ascii m hascii
  have hdec : WS.utf8Decode m = some m := WS.utf8Decode_ascii m hascii
  have e1 : (129 : ℕ) &&& 0x0F = 1 := by decide
  by_cases h1 : m.length < 126
  · have hsend : WS.send_frame m = 129 :: m.length :: m := by
      unfold WS.send_frame
      rw [if_pos h1, henc]
      rfl
    rw [hsend]
    have e2 : (m.length &&& 0x80) >>> 7 = 0 := WS.maskBit_clear _ (by omega)
    have e3 : m.length &&& 0x7F = m.length := WS.and127_small _ (by omega)
    simp only [WS.receive_frame, e1, e2, e3]
    rw [if_neg (show ¬ m.length = 126 by omega), if_neg (show ¬ m.length = 127 by omega)]
    norm_num [WS.WS_OPCODE_TEXT, List.take_length, List.drop_length, hdec]
  · by_cases h2 : m.length < 65536
    · have hsend : WS.send_frame m = 129 :: 126 :: (WS.toBytesBE 2 m.length ++ m) := by
        unfold WS.send_frame
        rw [if_neg h1, if_pos h2, henc]
        rfl
      rw [hsend]
      have e2 : ((126 : ℕ) &&& 0x80) >>> 7 = 0 := by decide
      have e3 : (126 : ℕ) &&& 0x7F = 126 := by decide
      have htake : (WS.toBytesBE 2 m.length ++ m).take 2 = WS.toBytesBE 2 m.length :=
        List.take_left' (WS.toBytesBE_length 2 m.length)
      have hdrop : (WS.toBytesBE 2 m.length ++ m).drop 2 = m :=
        List.drop_left' (WS.toBytesBE_length 2 m.length)
      have hfrom : WS.fromBytesBE (WS.toBytesBE 2 m.length) = m.length :=
        WS.fromBytesBE_toBytesBE 2 m.length (by norm_num; omega)
      simp only [WS.receive_frame, e1, e2, e3, htake, hdrop, hfrom]
      norm_num [WS.WS_OPCODE_TEXT, List.take_length, List.drop_length, hdec]
    · have hsend : WS.send_frame m = 129 :: 127 :: (WS.toBytesBE 8 m.length ++ m) := by
        unfold WS.send_frame
        rw [if_neg h1, if_neg h2, henc]
        rfl
      rw [hsend]
      have e2 : ((127 : ℕ) &&& 0x80) >>> 7 = 0 := by decide
      have e3 : (127 : ℕ) &&& 0x7F = 127 := by decide
      have htake : (WS.toBytesBE 8 m.length ++ m).take 8 = WS.toBytesBE 8 m.length :=
        List.take_left' (WS.toBytesBE_length 8 m.length)
      have hdrop : (WS.toBytesBE 8 m.length ++ m).drop 8 = m :=
        List.drop_left' (WS.toBytesBE_length 8 m.length)
      have hfrom : WS.fromBytesBE (WS.toBytesBE 8 m.length) = m.length :=
        WS.fromBytesBE_toBytesBE 8 m.length (by norm_num at hlen ⊢; omega)
      simp only [WS.receive_frame, e1, e2, e3, htake, hdrop, hfrom]
      norm_num [WS.WS_OPCODE_TEXT, List.take_length, List.drop_length, hdec]

set_option maxRecDepth 40000 in
/-- Witness for the amended C3 at the 126-byte boundary message of 126 times
the letter a-like code point 97: the extended 16-bit length encoding is
exercised and the round trip returns the message. -/
theorem frame_roundtrip_ascii_witness :
    WS.receive_frame (WS.send_frame (List.replicate 126 97)) =
      .frame (some (List.replicate 126 97)) [] :=
  frame_roundtrip_ascii (List.replicate 126 97) (by decide) (by decide)

/-- Claim C4, counterexample: after a non-text frame (opcode 0x2, one payload
byte) the session loop of handle_client stops — the following well-formed text
frame [0x81, 1, 65] is never processed, although the same stream starting at
that text frame yields the message.  'if not data: break' treats the None of a
non-text frame exactly like a closed stream, refuting "the caller's receive
loop continues reading subsequent frames on the same connection". -/
theorem nontext_frame_stops_loop_counterexample :
    WS.handleClientMessages [0x82, 1, 120, 0x81, 1, 65] = [] ∧
    WS.handleClientMessages [0x81, 1, 65] = [[65]] := by decide

/-- Claim C4, amended: a frame whose opcode is not the text opcode decodes to
no message (receive_frame returns None, not an error), and the caller's
receive loop then BREAKS: the session ends and no subsequent frame of the
same connection is read. -/
theorem nontext_frame_yields_none_and_ends_session (op : ℕ) (payload more : List ℕ)
    (hop : op < 16) (hne : op ≠ 1) (hlen : payload.length < 126) :
    WS.receive_frame ((0x80 ||| op) :: payload.length :: (payload ++ more)) =
      .frame none more ∧
    WS.handleClientMessages ((0x80 ||| op) :: payload.length :: (payload ++ more)) = [] := by
  have e1 : (0x80 ||| op) &&& 0x0F = op := WS.finOpcode_extract op hop
  have e2 : (payload.length &&& 0x80) >>> 7 = 0 := WS.maskBit_clear _ (by omega)
  have e3 : payload.length &&& 0x7F = payload.length := WS.and127_small _ (by omega)
  have htake : (payload ++ more).take payload.length = payload := List.take_left payload more
  have hdrop : (payload ++ more).drop payload.length = more := List.drop_left payload more
  have hrecv : WS.receive_frame ((0x80 ||| op) :: payload.length :: (payload ++ more)) =
      .frame none more := by
    simp only [WS.receive_frame, e1, e2, e3]
    rw [if_neg (show ¬ payload.length = 126 by omega),
      if_neg (show ¬ payload.length = 127 by omega)]
    norm_num [WS.WS_OPCODE_TEXT, htake, hdrop, hne]
  refine ⟨hrecv, ?_⟩
  simp [WS.handleClientMessages, WS.clientLoop, hrecv]

/-- Witness for the amended C4: a binary frame (opcode 0x2) followed by a text
frame yields no message and an ended session. -/
theorem nontext_frame_yields_none_witness :
    WS.receive_frame ((0x80 ||| 2) :: [120].length :: ([120] ++ [0x81, 1, 65])) =
      .frame none [0x81, 1, 65] ∧
    WS.handleClientMessages ((0x80 ||| 2) :: [120].length :: ([120] ++ [0x81, 1, 65])) = [] :=
  nontext_frame_yields_none_and_ends_session 2 [120] [0x81, 1, 65]
    (by decide) (by decide) (by decide)

/-- Claim C9, counterexample: the client's send_frame of the two-character
message "hi" is the four bytes [0x81, 2, 104, 105]: the mask bit of the length
byte is clear, no 4-byte masking key is present (the frame has exactly
header + raw payload) and the payload bytes are not XORed — refuting "the
client's frame encoder sets the mask bit ... appends a 4-byte masking key, and
XORs each payload byte". -/
theorem client_frame_unmasked_counterexample :
    WS.client_send_frame [104, 105] = [0x81, 2, 104, 105] ∧
    ((WS.client_send_frame [104, 105]).getD 1 0) &&& 0x80 = 0 ∧
    (WS.client_send_frame [104, 105]).length = 4 := by decide

/-- Claim C9, amended: the client frame encoder is byte-for-byte the server's
unmasked encoder — for every message the emitted frame equals the server's
send_frame output and the mask bit of the second header byte is clear; no
masking key is appended and the payload is transmitted unmodified. -/
theorem client_send_frame_equals_server_unmasked (m : List ℕ) :
    WS.client_send_frame m = WS.send_frame m ∧
    ((WS.client_send_frame m).getD 1 0) &&& 0x80 = 0 := by
  refine ⟨rfl, ?_⟩
  unfold WS.client_send_frame
  by_cases hl : m.length < 126
  · rw [if_pos hl]
    simpa using WS.and128_small m.length (by omega)
  · by_cases h2 : m.length < 65536
    · rw [if_neg hl, if_pos h2]
      simp only [List.cons_append, List.nil_append, List.getD_cons_succ, List.getD_cons_zero]
      decide
    · rw [if_neg hl, if_neg h2]
      simp only [List.cons_append, List.nil_append, List.getD_cons_succ, List.getD_cons_zero]
      decide

namespace Elev

/-- Elevator status strings of src/server/elevator.py. -/
inductive EStatus where
  | idle : EStatus
  | moving : EStatus
  | error : EStatus
  deriving DecidableEq, Repr

/-- One record of the self.elevators dict (floor, target, status, queue,
active). -/
structure Elevator where
  floor : ℤ
  target : Option ℤ
  status : EStatus
  queue : List ℤ
  active : Bool
  deriving DecidableEq, Repr

/-- ElevatorManager state: the three-elevator dict (dict keys 0,1,2 modelled
as list indices; dict iteration order is insertion order, i.e. id order) and
the global call queue of (floor, preferred_elevator) pairs. -/
structure ElevState where
  elevators : List Elevator
  call_queue : List (ℤ × Option ℤ)
  deriving DecidableEq, Repr

/-- The combined server-side state the dispatch operations act on. -/
structure Sys where
  elev : ElevState
  motor : Motor.MotorState
  deriving DecidableEq, Repr

/-- ElevatorManager.__init__ entry for one elevator. -/
def initElevator : Elevator :=
  { floor := 1, target := none, status := .idle, queue := [], active := false }

/-- ElevatorManager.__init__ plus the MotorController for the three motors. -/
def initSys : Sys :=
  { elev := { elevators := [initElevator, initElevator, initElevator], call_queue := [] }
    motor := Motor.initMotors 3 }

/-- Selection rule 1 loop: first elevator (in id order) already on the floor
and idle. -/
def onFloorIdle (floor : ℤ) : ℕ → List Elevator → Option ℕ
  | _, [] => none
  | i, e :: es =>
    if e.floor = floor ∧ e.status = .idle then some i
    else onFloorIdle floor (i + 1) es

/-- Selection rule 2 loop: the (id, distance) pairs of the idle elevators, in
id order. -/
def availableIdle (floor : ℤ) : ℕ → List Elevator → List (ℕ × ℕ)
  | _, [] => []
  | i, e :: es =>
    if e.status = .idle then (i, (e.floor - floor).natAbs) :: availableIdle floor (i + 1) es
    else availableIdle floor (i + 1) es

/-- Python min(available, key=lambda x: x[1]): the FIRST element with minimal
key. -/
def minByKey (x : ℕ × ℕ) (xs : List (ℕ × ℕ)) : ℕ × ℕ :=
  xs.foldl (fun best y => if y.2 < best.2 then y else best) x

/-- min(len(e.queue) for e in elevators.values()); none models the ValueError
Python's min() raises on an empty dict. -/
def minQueueLen : List Elevator → Option ℕ
  | [] => none
  | e :: es => some (es.foldl (fun m e2 => min m e2.queue.length) e.queue.length)

/-- Selection rule 3 loop: first elevator (in id order) whose queue length
equals the minimum. -/
def firstWithQueueLen (mq : ℕ) : ℕ → List Elevator → Option ℕ
  | _, [] => none
  | i, e :: es => if e.queue.length = mq then some i else firstWithQueueLen mq (i + 1) es

/-- ElevatorManager._select_best_elevator (src/server/elevator.py lines
70-107): rule 1 on-floor idle, rule 2 nearest idle (first on ties), rule 3
smallest queue among all (busy) elevators (first on ties); the trailing
'return 0' of the source is unreachable dead code (rule 3 always finds a
match in a nonempty dict) and none is produced only for an empty elevator
dict, where Python's min() would raise. -/
def select_best_elevator (es : List Elevator) (floor : ℤ) : Option ℕ :=
  match onFloorIdle floor 0 es with
  | some i => some i
  | none =>
    match availableIdle floor 0 es with
    | a :: rest => some (minByKey a rest).1
    | [] =>
      match minQueueLen es with
      | some mq =>
        match firstWithQueueLen mq 0 es with
        | some i => some i
        | none => some 0
      | none => none

/-- ElevatorManager._assign_floor (src/server/elevator.py lines 109-136): a
same-floor assignment only sets active; otherwise target/status are set, the
motor moves, and on success floor/target/status/active are updated together;
a raised motor error yields status error and active false.  An invalid id
raises KeyError inside the spawned task (state unchanged). -/
def assign_floor (s : Sys) (id : ℕ) (floor : ℤ) (stopAt : ℕ → Bool) : Sys :=
  match s.elev.elevators.get? id with
  | none => s
  | some e =>
    if floor = e.floor then
      { s with elev := { s.elev with
          elevators := s.elev.elevators.set id { e with active := true } } }
    else
      let e1 := { e with target := some floor, status := .moving }
      match Motor.move_to_floor s.motor id floor stopAt with
      | .ok (m1, _) =>
          let e2 := { e1 with floor := floor, target := none, status := EStatus.idle, active := true }
          { elev := { s.elev with elevators := s.elev.elevators.set id e2 }, motor := m1 }
      | .error _ =>
          let e2 := { e1 with status := EStatus.error, active := false }
          { elev := { s.elev with elevators := s.elev.elevators.set id e2 }, motor := s.motor }

/-- Acquiring the single asyncio.Lock of the manager: none models an await
that blocks because the (non-re-entrant) lock is already held. -/
def lockAcquire (locked : Bool) : Option Bool :=
  if locked then none else some true

/-- The 'await self._select_best_elevator(floor)' of _process_queues (line
60), performed while the caller holds self.lock.  _select_best_elevator's own
'async with self.lock:' (line 85) must first acquire the same lock; if the
caller already holds it the await never completes — the board runs a single
cooperative scheduler and no other task can release a lock its holder is
blocked behind — modelled as none.  When the lock is free the selection
returns as in select_best_elevator. -/
def select_best_elevator_await (locked : Bool) (es : List Elevator) (floor : ℤ) :
    Option (Option ℕ) :=
  match lockAcquire locked with
  | none => none
  | some _ => some (select_best_elevator es floor)

/-- What one iteration of the _process_queues loop reaches. -/
inductive QueueStepResult where
  | idleSleep : QueueStepResult
  | deadlock (popped : ℤ × Option ℤ) : QueueStepResult
  | requeued : QueueStepResult
  | assigned (id : ℕ) : QueueStepResult
  deriving DecidableEq, Repr

/-- One iteration of the ElevatorManager._process_queues background loop
(src/server/elevator.py lines 48-68): 'async with self.lock:' (line 54)
acquires the lock, which is free between iterations; an empty queue sleeps
0.1 s and retries (releasing the lock at the continue); otherwise the head
call is popped (line 59) and the iteration awaits _select_best_elevator
(line 60) STILL HOLDING the lock, so that await deadlocks (see
select_best_elevator_await) and neither the None/re-queue/1-second-backoff
branch (lines 63-66) nor the _assign_floor call (line 68) is ever reached;
both are kept here as the translation of those source lines, guarded by the
lock.  (server/main.py moreover never starts _process_queues as a task.) -/
def process_queues_step (s : Sys) (stopAt : ℕ → Bool) : QueueStepResult × Sys :=
  match s.elev.call_queue with
  | [] => (.idleSleep, s)
  | (floor, pref) :: rest =>
    let s1 : Sys := { s with elev := { s.elev with call_queue := rest } }
    match select_best_elevator_await true s1.elev.elevators floor with
    | none => (.deadlock (floor, pref), s1)
    | some none =>
        (.requeued, { s1 with elev := { s1.elev with call_queue := rest ++ [(floor, pref)] } })
    | some (some id) => (.assigned id, assign_floor s1 id floor stopAt)

/-- ElevatorManager.call_elevator (src/server/elevator.py lines 26-46): append
the call to the global queue; answer with the preferred elevator when it
exists and is idle, else with _select_best_elevator's choice (which the
caller passes on to the spawned _assign_floor task). -/
def call_elevator (s : Sys) (floor : ℤ) (pref : ℤ) : Sys × Option ℕ :=
  let s1 := { s with elev := { s.elev with
      call_queue := s.elev.call_queue ++ [(floor, some pref)] } }
  if 0 ≤ pref ∧ pref.toNat < s1.elev.elevators.length then
    match s1.elev.elevators.get? pref.toNat with
    | some e =>
        if e.status = .idle then (s1, some pref.toNat)
        else (s1, select_best_elevator s1.elev.elevators floor)
    | none => (s1, select_best_elevator s1.elev.elevators floor)
  else (s1, select_best_elevator s1.elev.elevators floor)

/-- ElevatorManager._process_elevator_queue (lines 163-173): drain the
per-elevator queue strictly FIFO; _assign_floor never touches the queue, so
the initial queue length bounds the iterations. -/
def drainQueue : ℕ → Sys → ℕ → (ℕ → Bool) → Sys
  | 0, s, _, _ => s
  | fuel + 1, s, id, stopAt =>
    match s.elev.elevators.get? id with
    | none => s
    | some e =>
      match e.queue with
      | [] => s
      | f :: rest =>
        let s1 := { s with elev := { s.elev with
            elevators := s.elev.elevators.set id { e with queue := rest } } }
        drainQueue fuel (assign_floor s1 id f stopAt) id stopAt

/-- ElevatorManager.send_elevator (lines 148-161): raise for an unknown id,
else append the floor to the elevator's queue and drain the queue. -/
def send_elevator (s : Sys) (id : ℤ) (floor : ℤ) (stopAt : ℕ → Bool) :
    Except String Sys :=
  if 0 ≤ id ∧ id.toNat < s.elev.elevators.length then
    match s.elev.elevators.get? id.toNat with
    | some e =>
      let e1 := { e with queue := e.queue ++ [floor] }
      let s1 := { s with elev := { s.elev with
          elevators := s.elev.elevators.set id.toNat e1 } }
      .ok (drainQueue (e.queue.length + 1) s1 id.toNat stopAt)
    | none => .error ("Invalid elevator ID: " ++ toString id)
  else .error ("Invalid elevator ID: " ++ toString id)

/-- ElevatorManager.reset_all (lines 175-185): per id, clear queue/target,
set idle, move the motor to floor 1, record floor 1 and clear active; a motor
error would propagate (it cannot occur for the configured ids). -/
def resetLoop : List ℕ → Sys → (ℕ → Bool) → Except String Sys
  | [], s, _ => .ok s
  | id :: ids, s, stopAt =>
    match s.elev.elevators.get? id with
    | none => resetLoop ids s stopAt
    | some e =>
      let e1 := { e with queue := ([] : List ℤ), target := none, status := EStatus.idle }
      let s1 := { s with elev := { s.elev with
          elevators := s.elev.elevators.set id e1 } }
      match Motor.move_to_floor s1.motor id 1 stopAt with
      | .error err => .error err
      | .ok (m1, _) =>
        let e2 := { e1 with floor := (1 : ℤ), active := false }
        let s2 : Sys :=
          { elev := { s1.elev with elevators := s1.elev.elevators.set id e2 }, motor := m1 }
        resetLoop ids s2 stopAt

/-- ElevatorManager.reset_all over all configured ids. -/
def reset_all (s : Sys) (stopAt : ℕ → Bool) : Except String Sys :=
  resetLoop (List.range s.elev.elevators.length) s stopAt

/-- A moving elevator record used by the concrete all-busy scenario. -/
def movingElev : Elevator :=
  { floor := 1, target := some 3, status := .moving, queue := [], active := false }

/-- All three elevators Moving and one pending call for floor 2. -/
def allMovingSys : Sys :=
  { elev := { elevators := [movingElev, movingElev, movingElev], call_queue := [(2, none)] },
    motor := Motor.initMotors 3 }

end Elev

namespace Elev

theorem onFloorIdle_none (floor : ℤ) (es : List Elevator)
    (h : ∀ e ∈ es, e.status ≠ .idle) : ∀ i, onFloorIdle floor i es = none := by
  induction es with
  | nil => intro i; rfl
  | cons e tl ih =>
      intro i
      unfold onFloorIdle
      rw [if_neg (by
        intro hc
        exact h e (by simp) hc.2)]
      exact ih (fun x hx => h x (by simp [hx])) (i + 1)

theorem availableIdle_nil (floor : ℤ) (es : List Elevator)
    (h : ∀ e ∈ es, e.status ≠ .idle) : ∀ i, availableIdle floor i es = [] := by
  induction es with
  | nil => intro i; rfl
  | cons e tl ih =>
      intro i
      unfold availableIdle
      rw [if_neg (h e (by simp))]
      exact ih (fun x hx => h x (by simp [hx])) (i + 1)

theorem foldlMin_spec (tl : List Elevator) (acc : ℕ) :
    (tl.foldl (fun m e2 => min m e2.queue.length) acc = acc ∨
      ∃ e ∈ tl, tl.foldl (fun m e2 => min m e2.queue.length) acc = e.queue.length) ∧
    tl.foldl (fun m e2 => min m e2.queue.length) acc ≤ acc ∧
    ∀ e ∈ tl, tl.foldl (fun m e2 => min m e2.queue.length) acc ≤ e.queue.length := by
  induction tl generalizing acc with
  | nil => exact ⟨Or.inl rfl, le_refl acc, by simp⟩
  | cons e tl ih =>
      simp only [List.foldl_cons]
      obtain ⟨hor, hle, hall⟩ := ih (min acc e.queue.length)
      refine ⟨?_, ?_, ?_⟩
      · rcases hor with heq | ⟨e2, he2, heq⟩
        · rcases min_choice acc e.queue.length with hm | hm
          · exact Or.inl (by rw [heq, hm])
          · exact Or.inr ⟨e, by simp, by rw [heq, hm]⟩
        · exact Or.inr ⟨e2, by simp [he2], heq⟩
      · exact le_trans hle (min_le_left _ _)
      · intro e2 he2
        rcases List.mem_cons.mp he2 with rfl | hmem
        · exact le_trans hle (min_le_right _ _)
        · exact hall e2 hmem

theorem minQueueLen_spec (e : Elevator) (tl : List Elevator) :
    ∃ mq, minQueueLen (e :: tl) = some mq ∧
      (∃ e2 ∈ e :: tl, e2.queue.length = mq) ∧
      ∀ e2 ∈ e :: tl, mq ≤ e2.queue.length := by
  obtain ⟨hor, hle, hall⟩ := foldlMin_spec tl e.queue.length
  refine ⟨_, rfl, ?_, ?_⟩
  · rcases hor with heq | ⟨e2, he2, heq⟩
    · exact ⟨e, by simp, heq.symm⟩
    · exact ⟨e2, by simp [he2], heq.symm⟩
  · intro e2 he2
    rcases List.mem_cons.mp he2 with rfl | hmem
    · exact hle
    · exact hall e2 hmem

theorem firstWithQueueLen_exists (mq : ℕ) (es : List Elevator)
    (h : ∃ e ∈ es, e.queue.length = mq) :
    ∀ i, ∃ j, firstWithQueueLen mq i es = some j := by
  induction es with
  | nil => simp at h
  | cons e tl ih =>
      intro i
      unfold firstWithQueueLen
      by_cases hc : e.queue.length = mq
      · exact ⟨i, by rw [if_pos hc]⟩
      · rw [if_neg hc]
        obtain ⟨e2, he2, hlen⟩ := h
        rcases List.mem_cons.mp he2 with rfl | hmem
        · exact absurd hlen hc
        · exact ih ⟨e2, hmem, hlen⟩ (i + 1)

theorem firstWithQueueLen_spec (mq : ℕ) (es : List Elevator) :
    ∀ i j, firstWithQueueLen mq i es = some j →
    ∃ k e, i + k = j ∧ es.get? k = some e ∧ e.queue.length = mq ∧
      ∀ l e2, l < k → es.get? l = some e2 → e2.queue.length ≠ mq := by
  induction es with
  | nil => intro i j h; simp [firstWithQueueLen] at h
  | cons e tl ih =>
      intro i j h
      unfold firstWithQueueLen at h
      by_cases hc : e.queue.length = mq
      · rw [if_pos hc] at h
        injection h with h2
        exact ⟨0, e, by omega, rfl, hc, fun l e2 hl _ => absurd hl (by omega)⟩
      · rw [if_neg hc] at h
        obtain ⟨k, e2, hij, hget, hlen, hprev⟩ := ih (i + 1) j h
        refine ⟨k + 1, e2, by omega, by simpa using hget, hlen, ?_⟩
        intro l e3 hl hget2
        match l with
        | 0 =>
            simp only [List.get?_cons_zero] at hget2
            injection hget2 with h3
            rw [← h3]
            exact hc
        | l + 1 =>
            exact hprev l e3 (by omega) (by simpa using hget2)

theorem assign_floor_call_queue (s : Sys) (id : ℕ) (floor : ℤ) (stopAt : ℕ → Bool) :
    (assign_floor s id floor stopAt).elev.call_queue = s.elev.call_queue := by
  unfold assign_floor
  rcases hg : s.elev.elevators.get? id with _ | e
  · rfl
  · by_cases hf : floor = e.floor
    · simp [hf]
    · simp only [if_neg hf]
      rcases hm : Motor.move_to_floor s.motor id floor stopAt with err | ok <;> simp [hm]

end Elev

/-- Even apart from the lock deadlock, _select_best_elevator returns an
elevator for every nonempty elevator dict — rule 3 always finds one — so the
None branch of _process_queues could not be reached either way. -/
theorem select_best_elevator_isSome (es : List Elev.Elevator) (hne : es ≠ [])
    (floor : ℤ) : (Elev.select_best_elevator es floor).isSome = true := by
  unfold Elev.select_best_elevator
  rcases h1 : Elev.onFloorIdle floor 0 es with _ | i
  · rcases h2 : Elev.availableIdle floor 0 es with _ | ⟨a, rest⟩
    · rcases hes : es with _ | ⟨e0, tl⟩
      · exact absurd hes hne
      · subst hes
        obtain ⟨mq, hmin, hmem, hlb⟩ := Elev.minQueueLen_spec e0 tl
        rcases h3 : Elev.firstWithQueueLen mq 0 (e0 :: tl) with _ | i
        · simp [h1, h2, hmin, h3]
        · simp [h1, h2, hmin, h3]
    · simp [h1, h2]
  · simp [h1]

/-- Witness for select_best_elevator_isSome at the all-Moving elevators. -/
theorem select_best_elevator_isSome_witness :
    (Elev.select_best_elevator Elev.allMovingSys.elev.elevators 2).isSome = true :=
  select_best_elevator_isSome Elev.allMovingSys.elev.elevators (by decide) 2

/-- Claim C2 (code bug), evaluated at the failing input — all three elevators
Moving and one pending call for floor 2: the _process_queues iteration pops
the call and then blocks forever, because the await of _select_best_elevator
(elevator.py line 60) happens inside 'async with self.lock:' (line 54) and
_select_best_elevator's own 'async with self.lock:' (line 85) can never
re-acquire the non-re-entrant lock on the single-task scheduler.  The popped
call is neither re-appended to the pending queue nor assigned to any
elevator, and no 1-second retry ever happens — the re-queue branch (lines
63-66) that the claim and the spec describe is dead code behind the deadlock
(and server/main.py never even starts _process_queues as a task). -/
theorem process_queues_deadlocks_on_pending_call :
    Elev.process_queues_step Elev.allMovingSys (fun _ => false) =
      (.deadlock (2, none),
        { Elev.allMovingSys with
            elev := { Elev.allMovingSys.elev with call_queue := [] } }) ∧
    Elev.select_best_elevator_await true Elev.allMovingSys.elev.elevators 2 = none := by
  decide

mutual
/-- JSON values as produced by json.loads for the wire messages of this
system.  Arrays never occur in the protocol's messages and are outside the
modelled message space; dict keys are assumed unique (json.loads keeps the
last duplicate, the sources never emit duplicates). -/
inductive Json where
  | null : Json
  | jbool (b : Bool) : Json
  | jnum (n : ℤ) : Json
  | jstr (s : String) : Json
  | obj (kvs : JEntries) : Json
  deriving DecidableEq, Repr

/-- Entries of a JSON object, in insertion order. -/
inductive JEntries where
  | nil : JEntries
  | cons (k : String) (v : Json) (rest : JEntries) : JEntries
  deriving DecidableEq, Repr
end

/-- Key lookup in a JSON object (first match; keys are unique). -/
def JEntries.lookup : JEntries → String → Option Json
  | .nil, _ => none
  | .cons k v rest, key => if k = key then some v else rest.lookup key

/-- dict.get(key) / key membership on a JSON value; none for a non-object. -/
def Json.get? (j : Json) (key : String) : Option Json :=
  match j with
  | .obj o => o.lookup key
  | _ => none

namespace Pairing

/-- Pairing._wait_for_response (src/client/pairing.py lines 52-71).  recv i is
the datagram observed in polling round i: none models no data waiting (the
non-blocking recvfrom raises, caught and ignored) or a payload that fails
json.loads / is not an object (also caught); some msg is a decoded JSON
object.  A round whose message has type "hello" returns message["ip"]
immediately (before that round's sleep); a "hello" without an "ip" key raises
KeyError, is caught, and the loop continues.  The second component counts the
completed one-second sleeps; exhausting all 10 rounds returns None after 10
sleeps.  -/
def waitLoop (recv : ℕ → Option Json) (i : ℕ) : Option Json × ℕ :=
  if 10 ≤ i then (none, 10)
  else
    match recv i with
    | some msg =>
        if msg.get? "type" = some (.jstr "hello") then
          match msg.get? "ip" with
          | some ip => (some ip, i)
          | none => waitLoop recv (i + 1)
        else waitLoop recv (i + 1)
    | none => waitLoop recv (i + 1)
  termination_by 10 - i
  decreasing_by all_goals omega

/-- Pairing._wait_for_response from round 0. -/
def wait_for_response (recv : ℕ → Option Json) : Option Json × ℕ :=
  waitLoop recv 0

/-- The number of pairing broadcast datagrams Pairing.start sends (at
one-second intervals) before polling. -/
def pairingBroadcasts : ℕ := 5

/-- Pairing.start (src/client/pairing.py lines 17-50): after the 5 broadcasts
it polls via _wait_for_response; a reply yields the server ip (and a paired
confirmation datagram), no reply yields None — the PairingTimeout outcome,
after which the caller must restart discovery. -/
def start (recv : ℕ → Option Json) : Option Json :=
  (wait_for_response recv).1

end Pairing

/-- Claim C5: a discovery attempt in which no hello datagram is ever received
fails with the PairingTimeout outcome (None) after exactly 10 one-second
polling rounds: _wait_for_response performs all 10 sleeps and returns None,
and start returns None to its caller. -/
theorem pairing_timeout_after_ten_rounds (recv : ℕ → Option Json)
    (h : ∀ i, i < 10 → ∀ msg, recv i = some msg →
      msg.get? "type" ≠ some (.jstr "hello")) :
    Pairing.wait_for_response recv = (none, 10) ∧ Pairing.start recv = none := by
  have key : ∀ d i, 10 - i ≤ d → Pairing.waitLoop recv i = (none, 10) := by
    intro d
    induction d with
    | zero =>
        intro i hi
        unfold Pairing.waitLoop
        rw [if_pos (by omega : (10 : ℕ) ≤ i)]
    | succ d ih =>
        intro i hi
        unfold Pairing.waitLoop
        by_cases h10 : 10 ≤ i
        · rw [if_pos h10]
        · rw [if_neg h10]
          rcases hr : recv i with _ | msg
          · exact ih (i + 1) (by omega)
          · have hne := h i (by omega) msg hr
            simp only [if_neg hne]
            exact ih (i + 1) (by omega)
  have hw : Pairing.wait_for_response recv = (none, 10) := key 10 0 (by omega)
  exact ⟨hw, by unfold Pairing.start; rw [hw]⟩

/-- Witness for C5: a client that receives nothing at all in every round. -/
theorem pairing_timeout_witness :
    Pairing.wait_for_response (fun _ => none) = (none, 10) ∧
    Pairing.start (fun _ => none) = none :=
  pairing_timeout_after_ten_rounds (fun _ => none)
    (fun _ _ _ hmsg => Option.noConfusion hmsg)

namespace Server

/-- Building a JSON object from a key-value list. -/
def jobj (l : List (String × Json)) : Json :=
  .obj (l.foldr (fun p acc => .cons p.1 p.2 acc) .nil)

/-- data[key] on a JSON value: KeyError when the key is missing, TypeError
when the value is not an object (error strings abbreviate Python's). -/
def getItem (j : Json) (key : String) : Except String Json :=
  match j with
  | .obj o =>
    match o.lookup key with
    | some v => .ok v
    | none => .error ("KeyError: " ++ key)
  | _ => .error "TypeError: value is not subscriptable"

/-- dict.get(key, default): AttributeError on a non-object. -/
def dictGet (j : Json) (key : String) (dfl : Json) : Except String Json :=
  match j with
  | .obj o => .ok ((o.lookup key).getD dfl)
  | _ => .error "AttributeError: get"

/-- Python int(x) on a JSON value: ints pass, booleans coerce, anything else
raises (numeric strings never occur in the protocol's messages and are
outside the modelled message space). -/
def pyInt (j : Json) : Except String ℤ :=
  match j with
  | .jnum n => .ok n
  | .jbool b => .ok (if b then 1 else 0)
  | _ => .error "ValueError: invalid literal for int()"

/-- WebSocketServer state touched by the session handlers: self.tasks (the
task dict, initialised empty in __init__ and consulted by handle_status) and
the elevator/motor system. -/
structure SState where
  tasks : List (Json × Json)
  sys : Elev.Sys
  deriving DecidableEq, Repr

/-- WebSocketServer.__init__ plus the managers it is constructed with. -/
def initServer : SState := { tasks := [], sys := Elev.initSys }

/-- handle_call's response frame (key order as json.dumps emits it). -/
def callFrame (floor eid : ℤ) (status : String) : Json :=
  jobj [("response", jobj [("type", .jstr "call"), ("floor", .jnum floor),
    ("elevator", .jnum eid), ("status", .jstr status)])]

/-- handle_task's response frame (note: elevator before floor). -/
def taskFrame (eid floor : ℤ) (status : String) : Json :=
  jobj [("response", jobj [("type", .jstr "task"), ("elevator", .jnum eid),
    ("floor", .jnum floor), ("status", .jstr status)])]

/-- handle_reset's response frame (the literal elevator 6 / floor 1 of the
source). -/
def resetFrame (status : String) : Json :=
  jobj [("response", jobj [("type", .jstr "reset"), ("elevator", .jnum 6),
    ("floor", .jnum 1), ("status", .jstr status)])]

/-- An {"error": msg} frame. -/
def errorFrame (msg : String) : Json := jobj [("error", .jstr msg)]

/-- handle_status's not-found response. -/
def notFoundFrame (t : Json) : Json :=
  jobj [("response", jobj [("task_id", t), ("status", .jstr "not_found")])]

/-- WebSocketServer.handle_call (src/server/websocket.py lines 191-225): int
coercion failures are answered with an error frame by process_message's
except; otherwise the processing frame, call_elevator, the completed frame,
and the spawned _assign_floor task (modelled as completing right after the
handler; its KeyError for a None selection dies inside the task). -/
def handle_call (s : SState) (callData : Json) (stopAt : ℕ → Bool) :
    SState × List Json :=
  match getItem callData "floor" with
  | .error e => (s, [errorFrame e])
  | .ok fv =>
    match pyInt fv with
    | .error e => (s, [errorFrame e])
    | .ok floor =>
      match dictGet callData "elevator" (.jnum 0) with
      | .error e => (s, [errorFrame e])
      | .ok ev =>
        match pyInt ev with
        | .error e => (s, [errorFrame e])
        | .ok eid =>
          match Elev.call_elevator s.sys floor eid with
          | (sys1, some id) =>
              ({ s with sys := Elev.assign_floor sys1 id floor stopAt },
                [callFrame floor eid "processing", callFrame floor eid "completed"])
          | (sys1, none) =>
              ({ s with sys := sys1 },
                [callFrame floor eid "processing", callFrame floor eid "completed"])

/-- WebSocketServer.handle_task (lines 227-256): the processing frame goes out
before send_elevator, so an invalid elevator id yields processing followed by
the error frame; a valid id drains the queue and yields completed.  The task
is never recorded in self.tasks. -/
def handle_task (s : SState) (taskData : Json) (stopAt : ℕ → Bool) :
    SState × List Json :=
  match dictGet taskData "motor" (.jnum 0) with
  | .error e => (s, [errorFrame e])
  | .ok mv =>
    match pyInt mv with
    | .error e => (s, [errorFrame e])
    | .ok eid =>
      match getItem taskData "floor" with
      | .error e => (s, [errorFrame e])
      | .ok fv =>
        match pyInt fv with
        | .error e => (s, [errorFrame e])
        | .ok floor =>
          match Elev.send_elevator s.sys eid floor stopAt with
          | .error e => (s, [taskFrame eid floor "processing", errorFrame e])
          | .ok sys1 =>
              ({ s with sys := sys1 },
                [taskFrame eid floor "processing", taskFrame eid floor "completed"])

/-- WebSocketServer.handle_status (lines 258-280): looks the raw task_id up in
self.tasks ('task_id in self.tasks' raises TypeError for an unhashable id);
a hit would echo the stored record (dead code: nothing ever inserts into
self.tasks), a miss answers not_found. -/
def handle_status (s : SState) (statusData : Json) : SState × List Json :=
  match getItem statusData "task_id" with
  | .error e => (s, [errorFrame e])
  | .ok t =>
    match t with
    | .obj _ => (s, [errorFrame "TypeError: unhashable type"])
    | _ =>
      match s.tasks.lookup t with
      | some task =>
          (s, [jobj [("response", jobj [("task_id", t),
            ("motor", (task.get? "motor").getD .null),
            ("floor", (task.get? "floor").getD .null),
            ("action", (task.get? "action").getD .null),
            ("status", (task.get? "status").getD .null)])]])
      | none => (s, [notFoundFrame t])

/-- WebSocketServer.handle_reset (lines 282-307). -/
def handle_reset (s : SState) (stopAt : ℕ → Bool) : SState × List Json :=
  match Elev.reset_all s.sys stopAt with
  | .error e => (s, [resetFrame "processing", errorFrame e])
  | .ok sys1 =>
      ({ s with sys := sys1 }, [resetFrame "processing", resetFrame "completed"])

/-- WebSocketServer.process_message (lines 167-189): dispatch on the first of
the keys call/task/status/reset; an object with none of them answers
{"error": "Invalid request"}; a non-object raises TypeError at the membership
test, caught and answered with its error frame.  Any exception escaping a
handler is likewise caught and answered (the frames already sent stay sent).
json.loads failures of the raw text are upstream of this model, whose input
is the parsed JSON value. -/
def process_message (s : SState) (msg : Json) (stopAt : ℕ → Bool) :
    SState × List Json :=
  match msg with
  | .obj o =>
      if (o.lookup "call").isSome then handle_call s ((o.lookup "call").getD .null) stopAt
      else if (o.lookup "task").isSome then handle_task s ((o.lookup "task").getD .null) stopAt
      else if (o.lookup "status").isSome then handle_status s ((o.lookup "status").getD .null)
      else if (o.lookup "reset").isSome then handle_reset s stopAt
      else (s, [errorFrame "Invalid request"])
  | _ => (s, [errorFrame "TypeError: argument is not iterable"])

/-- A session's worth of messages, each processed with its own stop-request
oracle. -/
def runMessages (s : SState) (msgs : List Json) (stops : ℕ → ℕ → Bool) : SState :=
  (msgs.enum).foldl (fun st p => (process_message st p.2 (stops p.1)).1) s

end Server

namespace Server

theorem handle_call_tasks (s : SState) (d : Json) (f : ℕ → Bool) :
    (handle_call s d f).1.tasks = s.tasks := by
  unfold handle_call
  repeat' split
  all_goals rfl

theorem handle_task_tasks (s : SState) (d : Json) (f : ℕ → Bool) :
    (handle_task s d f).1.tasks = s.tasks := by
  unfold handle_task
  repeat' split
  all_goals rfl

theorem handle_status_tasks (s : SState) (d : Json) :
    (handle_status s d).1.tasks = s.tasks := by
  unfold handle_status
  repeat' split
  all_goals rfl

theorem handle_reset_tasks (s : SState) (f : ℕ → Bool) :
    (handle_reset s f).1.tasks = s.tasks := by
  unfold handle_reset
  repeat' split
  all_goals rfl

theorem process_message_tasks (s : SState) (msg : Json) (f : ℕ → Bool) :
    (process_message s msg f).1.tasks = s.tasks := by
  unfold process_message
  rcases msg with _ | b | n | s2 | o <;>
    first
      | rfl
      | ((repeat' split) <;>
          first
            | rfl
            | exact handle_call_tasks ..
            | exact handle_task_tasks ..
            | exact handle_status_tasks ..
            | exact handle_reset_tasks ..)

theorem runMessages_tasks (msgs : List Json) (stops : ℕ → ℕ → Bool) (s : SState) :
    (runMessages s msgs stops).tasks = s.tasks := by
  unfold runMessages
  have key : ∀ (l : List (ℕ × Json)) (st : SState),
      (l.foldl (fun st p => (process_message st p.2 (stops p.1)).1) st).tasks = st.tasks := by
    intro l
    induction l with
    | nil => intro st; rfl
    | cons p tl ih =>
        intro st
        simp only [List.foldl_cons]
        rw [ih, process_message_tasks]
  exact key msgs.enum s

end Server

/-- Claim C10: for every session history and every (hashable) task id t, a
status command for t is answered with the not_found response: self.tasks is
initialised empty and no handler ever inserts an entry, so no status query
can observe any other status. -/
theorem status_always_not_found (msgs : List Json) (stops : ℕ → ℕ → Bool) (t : Json)
    (ht : ∀ o, t ≠ .obj o) (stopAt : ℕ → Bool) :
    (Server.process_message (Server.runMessages Server.initServer msgs stops)
        (Server.jobj [("status", Server.jobj [("task_id", t)])]) stopAt).2 =
      [Server.notFoundFrame t] := by
  have htasks : (Server.runMessages Server.initServer msgs stops).tasks = [] :=
    Server.runMessages_tasks msgs stops Server.initServer
  unfold Server.process_message
  simp only [Server.jobj, List.foldr, JEntries.lookup]
  norm_num
  unfold Server.handle_status Server.getItem
  simp only [JEntries.lookup]
  norm_num
  rcases t with _ | b | n | s2 | o
  · simp [htasks]
  · simp [htasks]
  · simp [htasks]
  · simp [htasks]
  · exact absurd rfl (ht o)

/-- Witness for C10: the empty session history and task id 42. -/
theorem status_always_not_found_witness :
    (Server.process_message (Server.runMessages Server.initServer [] (fun _ _ => false))
        (Server.jobj [("status", Server.jobj [("task_id", .jnum 42)])]) (fun _ => false)).2 =
      [Server.notFoundFrame (.jnum 42)] :=
  status_always_not_found [] (fun _ _ => false) (.jnum 42) (fun _ h => Json.noConfusion h) (fun _ => false)

set_option maxRecDepth 20000 in
/-- Claim C6, counterexample: the call {"call":{"floor":5,"elevator":0}} AND
the task {"task":{"id":1,"motor":0,"floor":5,"action":"move"}}, both naming
floor 5 outside [1,3], are each answered with the processing and completed
frames and NO error frame; the motion failure is only recorded internally as
elevator 0's Error status — refuting "a call or task naming a floor outside
[1,F] is answered with an error response rather than a completed response". -/
theorem out_of_range_floor_counterexample :
    (Server.process_message Server.initServer
        (Server.jobj [("call", Server.jobj [("floor", .jnum 5), ("elevator", .jnum 0)])])
        (fun _ => false)).2 =
      [Server.callFrame 5 0 "processing", Server.callFrame 5 0 "completed"] ∧
    ((Server.process_message Server.initServer
        (Server.jobj [("call", Server.jobj [("floor", .jnum 5), ("elevator", .jnum 0)])])
        (fun _ => false)).1.sys.elev.elevators.get? 0).map (·.status) =
      some .error ∧
    (Server.process_message Server.initServer
        (Server.jobj [("task", Server.jobj [("id", .jnum 1), ("motor", .jnum 0),
          ("floor", .jnum 5), ("action", .jstr "move")])])
        (fun _ => false)).2 =
      [Server.taskFrame 0 5 "processing", Server.taskFrame 0 5 "completed"] ∧
    ((Server.process_message Server.initServer
        (Server.jobj [("task", Server.jobj [("id", .jnum 1), ("motor", .jnum 0),
          ("floor", .jnum 5), ("action", .jstr "move")])])
        (fun _ => false)).1.sys.elev.elevators.get? 0).map (·.status) =
      some .error := by decide

/-- Claim C6, amended: an unrecognized JSON shape is answered with the
{"error": "Invalid request"} frame and a task naming an invalid elevator id is
answered with processing followed by an {"error": ...} frame (the connection
stays open in both cases, the handlers being total); but a call naming ANY
floor, and a task addressing a valid elevator id at ANY floor — in particular
floors outside [1,F] — are answered with processing and completed frames,
never an error response. -/
theorem invalid_command_error_responses (s : Server.SState) (stopAt : ℕ → Bool) :
    (∀ (o : JEntries), o.lookup "call" = none → o.lookup "task" = none →
      o.lookup "status" = none → o.lookup "reset" = none →
      (Server.process_message s (.obj o) stopAt).2 =
        [Server.errorFrame "Invalid request"]) ∧
    (∀ (floor eid : ℤ),
      (Server.process_message s
          (Server.jobj [("call", Server.jobj [("floor", .jnum floor), ("elevator", .jnum eid)])])
          stopAt).2 =
        [Server.callFrame floor eid "processing", Server.callFrame floor eid "completed"]) ∧
    (∀ (floor eid : ℤ), ¬ (0 ≤ eid ∧ eid.toNat < s.sys.elev.elevators.length) →
      (Server.process_message s
          (Server.jobj [("task", Server.jobj [("motor", .jnum eid), ("floor", .jnum floor)])])
          stopAt).2 =
        [Server.taskFrame eid floor "processing",
          Server.errorFrame ("Invalid elevator ID: " ++ toString eid)]) ∧
    (∀ (floor eid : ℤ), (0 ≤ eid ∧ eid.toNat < s.sys.elev.elevators.length) →
      (Server.process_message s
          (Server.jobj [("task", Server.jobj [("motor", .jnum eid), ("floor", .jnum floor)])])
          stopAt).2 =
        [Server.taskFrame eid floor "processing", Server.taskFrame eid floor "completed"]) := by
  refine ⟨?_, ?_, ?_, ?_⟩
  · intro o h1 h2 h3 h4
    unfold Server.process_message
    simp [h1, h2, h3, h4]
  · intro floor eid
    simp only [Server.process_message, Server.jobj, List.foldr, JEntries.lookup]
    norm_num
    simp [Server.handle_call, Server.getItem, Server.dictGet, Server.pyInt,
      Server.jobj, JEntries.lookup]
    split <;> rfl
  · intro floor eid hid
    simp only [Server.process_message, Server.jobj, List.foldr, JEntries.lookup]
    norm_num
    simp [Server.handle_task, Server.getItem, Server.dictGet, Server.pyInt,
      Server.jobj, JEntries.lookup, Elev.send_elevator, hid]
  · intro floor eid hid
    obtain ⟨e, he⟩ : ∃ e, s.sys.elev.elevators.get? eid.toNat = some e := by
      rcases hg : s.sys.elev.elevators.get? eid.toNat with _ | e
      · rw [List.get?_eq_none] at hg
        omega
      · exact ⟨e, rfl⟩
    simp only [Server.process_message, Server.jobj, List.foldr, JEntries.lookup]
    norm_num
    simp [Server.handle_task, Server.getItem, Server.dictGet, Server.pyInt,
      Server.jobj, JEntries.lookup, Elev.send_elevator, hid, he]

/-- Witness for the amended C6: an unknown command shape, a task with the
invalid elevator id 7, and a task sending valid elevator 0 to the
out-of-range floor 5. -/
theorem invalid_command_error_responses_witness :
    (Server.process_message Server.initServer (.obj (.cons "foo" .null .nil))
        (fun _ => false)).2 = [Server.errorFrame "Invalid request"] ∧
    (Server.process_message Server.initServer
        (Server.jobj [("task", Server.jobj [("motor", .jnum 7), ("floor", .jnum 2)])])
        (fun _ => false)).2 =
      [Server.taskFrame 7 2 "processing",
        Server.errorFrame ("Invalid elevator ID: " ++ toString (7 : ℤ))] ∧
    (Server.process_message Server.initServer
        (Server.jobj [("task", Server.jobj [("motor", .jnum 0), ("floor", .jnum 5)])])
        (fun _ => false)).2 =
      [Server.taskFrame 0 5 "processing", Server.taskFrame 0 5 "completed"] :=
  ⟨(invalid_command_error_responses Server.initServer (fun _ => false)).1 _ rfl rfl rfl rfl,
    (invalid_command_error_responses Server.initServer (fun _ => false)).2.2.1 2 7 (by decide),
    (invalid_command_error_responses Server.initServer (fun _ => false)).2.2.2 5 0 (by decide)⟩

namespace SHA1

/-- 32-bit left rotation (operands below 2^32). -/
def rotl (b x : ℕ) : ℕ := ((x <<< b) ||| (x >>> (32 - b))) % 2 ^ 32

/-- SHA-1 padding: 0x80, zeros to 56 mod 64, 64-bit big-endian bit length. -/
def pad (msg : List ℕ) : List ℕ :=
  msg ++ 0x80 :: List.replicate ((119 - msg.length % 64) % 64) 0
    ++ WS.toBytesBE 8 (8 * msg.length)

/-- 64-byte chunks; every step consumes at least one byte, so fuel = length
suffices. -/
def chunksAux : ℕ → List ℕ → List (List ℕ)
  | 0, _ => []
  | _, [] => []
  | fuel + 1, b :: rest => ((b :: rest).take 64) :: chunksAux fuel ((b :: rest).drop 64)

/-- 64-byte chunks of the padded message. -/
def chunks (l : List ℕ) : List (List ℕ) := chunksAux l.length l

/-- Big-endian 32-bit words of one chunk. -/
def toWords : List ℕ → List ℕ
  | b0 :: b1 :: b2 :: b3 :: rest =>
      (((b0 * 256 + b1) * 256 + b2) * 256 + b3) :: toWords rest
  | _ => []

/-- One step of the message-schedule extension: w[i] = rotl1 of
w[i-3]^w[i-8]^w[i-14]^w[i-16]. -/
def extendStep (w : List ℕ) : List ℕ :=
  w ++ [rotl 1 ((w.getD (w.length - 3) 0) ^^^ (w.getD (w.length - 8) 0) ^^^
    (w.getD (w.length - 14) 0) ^^^ (w.getD (w.length - 16) 0))]

/-- n extension steps. -/
def schedule : List ℕ → ℕ → List ℕ
  | w, 0 => w
  | w, n + 1 => schedule (extendStep w) n

/-- Round function and constant per round quarter. -/
def fk (i b c d : ℕ) : ℕ × ℕ :=
  if i < 20 then ((b &&& c) ||| ((b ^^^ 0xFFFFFFFF) &&& d), 0x5A827999)
  else if i < 40 then (b ^^^ c ^^^ d, 0x6ED9EBA1)
  else if i < 60 then ((b &&& c) ||| (b &&& d) ||| (c &&& d), 0x8F1BBCDC)
  else (b ^^^ c ^^^ d, 0xCA62C1D6)

/-- One SHA-1 round on the (a,b,c,d,e) state. -/
def round1 (st : ℕ × ℕ × ℕ × ℕ × ℕ) (iw : ℕ × ℕ) : ℕ × ℕ × ℕ × ℕ × ℕ :=
  let (a, b, c, d, e) := st
  let (f, k) := fk iw.1 b c d
  ((rotl 5 a + f + e + k + iw.2) % 2 ^ 32, a, rotl 30 b, c, d)

/-- Compression of one 64-byte chunk. -/
def compress (h : ℕ × ℕ × ℕ × ℕ × ℕ) (chunk : List ℕ) : ℕ × ℕ × ℕ × ℕ × ℕ :=
  let w := schedule (toWords chunk) 64
  let (h0, h1, h2, h3, h4) := h
  let (a, b, c, d, e) := w.enum.foldl round1 (h0, h1, h2, h3, h4)
  ((h0 + a) % 2 ^ 32, (h1 + b) % 2 ^ 32, (h2 + c) % 2 ^ 32,
    (h3 + d) % 2 ^ 32, (h4 + e) % 2 ^ 32)

/-- hashlib.sha1(msg).digest(): the 20-byte SHA-1 digest. -/
def sha1 (msg : List ℕ) : List ℕ :=
  let r := (chunks (pad msg)).foldl compress
    (0x67452301, 0xEFCDAB89, 0x98BADCFE, 0x10325476, 0xC3D2E1F0)
  WS.toBytesBE 4 r.1 ++ WS.toBytesBE 4 r.2.1 ++ WS.toBytesBE 4 r.2.2.1 ++
    WS.toBytesBE 4 r.2.2.2.1 ++ WS.toBytesBE 4 r.2.2.2.2

/-- The base64 alphabet character for one 6-bit value. -/
def b64Char (n : ℕ) : Char :=
  "ABCDEFGHIJKLMNOPQRSTUVWXYZabcdefghijklmnopqrstuvwxyz0123456789+/".data.getD n 'A'

/-- Base64 of a byte list, with '=' padding. -/
def b64 : List ℕ → List Char
  | [] => []
  | [b0] => [b64Char (b0 / 4), b64Char (b0 % 4 * 16), '=', '=']
  | [b0, b1] => [b64Char (b0 / 4), b64Char (b0 % 4 * 16 + b1 / 16), b64Char (b1 % 16 * 4), '=']
  | b0 :: b1 :: b2 :: rest =>
      b64Char (b0 / 4) :: b64Char (b0 % 4 * 16 + b1 / 16) ::
        b64Char (b1 % 16 * 4 + b2 / 64) :: b64Char (b2 % 64) :: b64 rest

/-- ubinascii.b2a_base64(bs).strip(): base64 text, trailing newline removed. -/
def b2a_base64_strip (bs : List ℕ) : String := String.mk (b64 bs)

end SHA1

set_option maxRecDepth 100000 in
theorem sha1_abc_check :
    SHA1.sha1 [97, 98, 99] =
      [0xa9, 0x99, 0x3e, 0x36, 0x47, 0x06, 0x81, 0x6a, 0xba, 0x3e,
        0x25, 0x71, 0x78, 0x50, 0xc2, 0x6c, 0x9c, 0xd0, 0xd8, 0x9d] := by decide


namespace Handshake

/-- WS_MAGIC_STRING (src/server/websocket.py line 7). -/
def WS_MAGIC_STRING : String := "258EAFA5-E914-47DA-95CA-C5AB0DC85B11"

/-- str.encode(): the UTF-8 bytes of a string. -/
def strBytes (s : String) : List ℕ := WS.utf8Encode (s.data.map Char.toNat)

/-- line.split(": ", 1): the characters before the first occurrence of the
two-character separator and everything after it; none when the separator is
absent (the two-variable unpacking then raises ValueError). -/
def splitHeader : List Char → Option (List Char × List Char)
  | [] => none
  | c :: rest =>
    if c = ':' then
      match rest with
      | ' ' :: tail => some ([], tail)
      | _ =>
        match splitHeader rest with
        | some (k, v) => some (c :: k, v)
        | none => none
    else
      match splitHeader rest with
      | some (k, v) => some (c :: k, v)
      | none => none

/-- headers[key] = value with dict overwrite semantics. -/
def dictInsert (d : List (String × String)) (k v : String) : List (String × String) :=
  if (d.lookup k).isSome then d.map (fun p => if p.1 = k then (k, v) else p)
  else d ++ [(k, v)]

/-- The header-reading loop of WebSocketServer.handshake (lines 82-88): each
line (modelled after .strip(), i.e. without CRLF) is split at ": " and
entered into the headers dict in order. -/
def parseHeadersAux (d : List (String × String)) :
    List String → Except String (List (String × String))
  | [] => .ok d
  | line :: rest =>
    match splitHeader line.data with
    | none => .error "ValueError: not enough values to unpack"
    | some (k, v) => parseHeadersAux (dictInsert d (String.mk k) (String.mk v)) rest

/-- All header lines parsed into the headers dict. -/
def parseHeaders (lines : List String) : Except String (List (String × String)) :=
  parseHeadersAux [] lines

/-- accept_key = b2a_base64(sha1((key + WS_MAGIC_STRING).encode()).digest()).strip(). -/
def computeAccept (key : String) : String :=
  SHA1.b2a_base64_strip (SHA1.sha1 (strBytes (key ++ WS_MAGIC_STRING)))

/-- The handshake response (lines 100-105). -/
def handshakeResponse (accept : String) : String :=
  "HTTP/1.1 101 Switching Protocols\r\nUpgrade: websocket\r\nConnection: Upgrade\r\nSec-WebSocket-Accept: "
    ++ accept ++ "\r\n\r\n"

/-- WebSocketServer.handshake (src/server/websocket.py lines 73-107): the
request line is read and ignored, the headers are parsed up to the blank
line; a missing Sec-WebSocket-Key header raises
ValueError("Invalid WebSocket handshake") — the HandshakeError of the error
taxonomy; otherwise the accept value is computed from the supplied key and
the 101 Switching Protocols response carrying it is written back. -/
def handshake (_request_line : String) (lines : List String) : Except String String :=
  match parseHeaders lines with
  | .error e => .error e
  | .ok headers =>
    match headers.lookup "Sec-WebSocket-Key" with
    | none => .error "Invalid WebSocket handshake"
    | some key => .ok (handshakeResponse (computeAccept key))

end Handshake

set_option maxRecDepth 100000 in
theorem computeAccept_rfc_check :
    Handshake.computeAccept "dGhlIHNhbXBsZSBub25jZQ==" = "s3pPLMBiTxaQ9kYGzzhZRbK+xOo=" := by
  decide

/-- Claim C8: for every server-side handshake whose header lines parse, a
request without the Sec-WebSocket-Key header fails with the
"Invalid WebSocket handshake" error (HandshakeError), and a request carrying
key responds with a response that starts with the 101 Switching Protocols
status line, carries the Sec-WebSocket-Accept header, and whose accept value
is base64(SHA-1(key + WS_MAGIC_STRING)). -/
theorem handshake_requires_key_and_computes_accept (rl : String) (lines : List String)
    (headers : List (String × String))
    (hp : Handshake.parseHeaders lines = .ok headers) :
    (headers.lookup "Sec-WebSocket-Key" = none →
      Handshake.handshake rl lines = .error "Invalid WebSocket handshake") ∧
    (∀ key, headers.lookup "Sec-WebSocket-Key" = some key →
      Handshake.handshake rl lines =
        .ok (Handshake.handshakeResponse (Handshake.computeAccept key)) ∧
      (∃ tail, Handshake.handshakeResponse (Handshake.computeAccept key) =
        "HTTP/1.1 101 Switching Protocols\r\n" ++ tail) ∧
      (∃ pre, Handshake.handshakeResponse (Handshake.computeAccept key) =
        pre ++ ("Sec-WebSocket-Accept: " ++ Handshake.computeAccept key ++ "\r\n\r\n"))) := by
  constructor
  · intro hnone
    unfold Handshake.handshake
    simp only [hp, hnone]
  · intro key hkey
    refine ⟨by unfold Handshake.handshake; simp only [hp, hkey], ?_, ?_⟩
    · refine ⟨"Upgrade: websocket\r\nConnection: Upgrade\r\nSec-WebSocket-Accept: "
        ++ Handshake.computeAccept key ++ "\r\n\r\n", ?_⟩
      unfold Handshake.handshakeResponse
      rw [← String.append_assoc, ← String.append_assoc]
      rw [show ("HTTP/1.1 101 Switching Protocols\r\n" ++
        "Upgrade: websocket\r\nConnection: Upgrade\r\nSec-WebSocket-Accept: " : String) =
        "HTTP/1.1 101 Switching Protocols\r\nUpgrade: websocket\r\nConnection: Upgrade\r\nSec-WebSocket-Accept: "
        from by decide]
    · refine ⟨"HTTP/1.1 101 Switching Protocols\r\nUpgrade: websocket\r\nConnection: Upgrade\r\n", ?_⟩
      unfold Handshake.handshakeResponse
      simp only [← String.append_assoc]
      rw [show ("HTTP/1.1 101 Switching Protocols\r\nUpgrade: websocket\r\nConnection: Upgrade\r\n" ++
        "Sec-WebSocket-Accept: " : String) =
        "HTTP/1.1 101 Switching Protocols\r\nUpgrade: websocket\r\nConnection: Upgrade\r\nSec-WebSocket-Accept: "
        from by decide]

set_option maxRecDepth 100000 in
/-- Witness for C8 at the RFC 6455 sample key (the literal key the client of
this repository sends) and at a request without the key header; the computed
accept for the sample key is checked against its published value in
computeAccept_rfc_check. -/
theorem handshake_accept_witness :
    Handshake.handshake "GET / HTTP/1.1"
        ["Host: 192.168.4.1", "Sec-WebSocket-Key: dGhlIHNhbXBsZSBub25jZQ=="] =
      .ok (Handshake.handshakeResponse
        (Handshake.computeAccept "dGhlIHNhbXBsZSBub25jZQ==")) ∧
    Handshake.handshake "GET / HTTP/1.1" ["Host: 192.168.4.1"] =
      .error "Invalid WebSocket handshake" := by
  constructor
  · exact ((handshake_requires_key_and_computes_accept "GET / HTTP/1.1"
      ["Host: 192.168.4.1", "Sec-WebSocket-Key: dGhlIHNhbXBsZSBub25jZQ=="]
      [("Host", "192.168.4.1"), ("Sec-WebSocket-Key", "dGhlIHNhbXBsZSBub25jZQ==")]
      (by decide)).2 "dGhlIHNhbXBsZSBub25jZQ==" (by decide)).1
  · exact (handshake_requires_key_and_computes_accept "GET / HTTP/1.1" ["Host: 192.168.4.1"]
      [("Host", "192.168.4.1")] (by decide)).1 (by decide)
